import Mathlib

/-!
Shallow embedding of `src/script.py` (Windows 11 compatibility checker).

The program probes the host for hardware facts, evaluates seven fixed
compatibility predicates over them in `build_report`, renders a text
report, and writes it to `<hostname>.txt`.

Modelling conventions:
* Python numbers (ints and the floats produced by `bytes_to_gb`) are
  modelled as rationals `ℚ`; `round(x, 2)` is modelled exactly as
  round-half-to-even on rationals.  All values reaching `round` in the
  program are dyadic rationals exactly representable in double
  precision, so the rational model coincides with the float semantics
  at every input used in the theorems below.
* A Python variable that may hold `None` is an `Option`; comparing
  `None >= n` raises `TypeError`, modelled with `Except PyErr`.
* Values that are "number or sentinel string" (the disk sizes) are the
  sum type `PyVal`.
* Shelling out (`subprocess.run`) is modelled by an oracle
  `runner : String → ℕ → SubprocOutcome` mapping a command line and a
  timeout to the observed outcome; `json.loads` by an oracle
  `parse : String → Option TpmJson`.
* The filesystem seen by `write_output_file` is a partial map from
  paths to byte lists.
-/

namespace Win11Check

/-- Python runtime errors that the embedded expressions can raise. -/
inductive PyErr where
  | typeError
deriving DecidableEq, Repr

/-- A Python value that is either a number (int or float, modelled as a
rational) or a string; `get_disk_info` returns numbers on success and the
sentinel string on failure. -/
inductive PyVal where
  | num (q : ℚ)
  | str (s : String)
deriving DecidableEq, Repr

/-- Python `a >= b` where `a` is a float-or-`None` variable: `None >= b`
raises `TypeError`, a number compares normally. -/
def pyGeQ : Option ℚ → ℚ → Except PyErr Bool
  | some a, b => .ok (decide (b ≤ a))
  | none, _ => .error .typeError

/-- Python `a >= b` where `a` is an int-or-`None` variable. -/
def pyGeZ : Option ℤ → ℤ → Except PyErr Bool
  | some a, b => .ok (decide (b ≤ a))
  | none, _ => .error .typeError

/-- Bool test that the first character list is a prefix of the second. -/
def chPre : List Char → List Char → Bool
  | [], _ => true
  | _ :: _, [] => false
  | a :: as, b :: bs => a == b && chPre as bs

/-- Bool test that `n` occurs as a contiguous sublist of the second list. -/
def chSub (n : List Char) : List Char → Bool
  | [] => chPre n []
  | b :: bs => chPre n (b :: bs) || chSub n bs

/-- Python `needle in hay` on strings: contiguous (case-sensitive)
substring test. -/
def pyIn (needle hay : String) : Bool := chSub needle.toList hay.toList

/-- Python `s.lower()`: per-character lowercasing.  `Char.toLower` maps
the ASCII uppercase range; every string the program lowercases is ASCII
or already lowercase, so this coincides with Python on all relevant
inputs. -/
def pyLower (s : String) : String := String.mk (s.toList.map Char.toLower)

theorem chPre_iff (n : List Char) : ∀ h : List Char, chPre n h = true ↔ n <+: h := by
  induction n with
  | nil => intro h; simp [chPre]
  | cons a as ih =>
    intro h
    cases h with
    | nil => simp [chPre]
    | cons b bs =>
      simp only [chPre, Bool.and_eq_true, beq_iff_eq, ih, List.cons_prefix_cons]

theorem chSub_iff (n : List Char) : ∀ h : List Char, chSub n h = true ↔ n <:+: h := by
  intro h
  induction h with
  | nil => simp [chSub, chPre_iff, List.infix_nil, List.prefix_nil]
  | cons b bs ih =>
    simp only [chSub, Bool.or_eq_true, chPre_iff, ih, List.infix_cons_iff]

theorem pyIn_iff (needle hay : String) :
    pyIn needle hay = true ↔ needle.toList <:+: hay.toList := by
  simp [pyIn, chSub_iff]

/-- If a pattern is at most as long as the first chunk and is not a prefix
of it, it is not a prefix of the chunk extended on the right either. -/
theorem chPre_append_of_le (p : List Char) :
    ∀ a b : List Char, p.length ≤ a.length → chPre p (a ++ b) = chPre p a := by
  induction p with
  | nil => intro a b _; simp [chPre]
  | cons x xs ih =>
    intro a b hlen
    cases a with
    | nil => simp at hlen
    | cons y ys =>
      simp only [List.cons_append, chPre]
      have := ih ys b (by simpa using hlen)
      simp only [List.append_eq] at this ⊢
      rw [this]

/-- Round-half-to-even of a rational to an integer: the exact semantics of
Python `round` at a tie, and ordinary nearest-integer rounding otherwise. -/
def pyRound (q : ℚ) : ℤ :=
  let f : ℤ := ⌊q⌋
  if q - f < 1/2 then f
  else if (1 : ℚ)/2 < q - f then f + 1
  else if f % 2 = 0 then f else f + 1

/-- Python `round(x, 2)`. -/
def round2 (q : ℚ) : ℚ := (pyRound (q * 100) : ℚ) / 100

/-- `bytes_to_gb`: `round(b / (1024 ** 3), 2)`.  The `except` branch
(returning `None`) is unreachable for numeric input; `None` inputs are
modelled at the call sites with `Option`. -/
def bytes_to_gb (b : ℚ) : ℚ := round2 (b / 1024 ^ 3)

/-- `check_requirement`: glyph rendering of a predicate result. -/
def check_requirement (condition : Bool) : String :=
  if condition then "✔️ Compatível" else "❌ Não compatível"

/-- Outcome of one `subprocess.run` call as observed by `safe_run`. -/
inductive SubprocOutcome where
  | completed (returncode : ℤ) (stdout stderr : String)
  | timedOut (msg : String)
  | raised (msg : String)
deriving DecidableEq, Repr

/-- The body of `safe_run` applied to one subprocess outcome.  A
`TimeoutExpired` or any other exception is caught and turned into
`(False, str(e))`; a completed process yields its stripped stdout, with
`ok` true exactly for a zero return code. -/
def safe_run_outcome : SubprocOutcome → Bool × String
  | .completed rc out err =>
      let o := out.trim
      let e := err.trim
      if rc == 0 then (true, o) else (false, if o != "" then o else e)
  | .timedOut m => (false, m)
  | .raised m => (false, m)

/-- `safe_run(cmd, timeout)`: runs the command through the subprocess
oracle at the given timeout (the source's default and only used value
is 8 seconds) and post-processes the outcome. -/
def safe_run (runner : String → ℕ → SubprocOutcome) (cmd : String) (timeout : ℕ) :
    Bool × String :=
  safe_run_outcome (runner cmd timeout)

/-- The raw payload stored in the TPM record: the parsed JSON dictionary
on the parsed path, the raw stdout text otherwise. -/
inductive TpmRaw where
  | json (present enabled ready : Option Bool) (specVersion manufVerFull20 manufId : Option String)
  | text (s : String)
deriving DecidableEq, Repr

/-- The dictionary returned by `get_tpm_info`. -/
structure TpmInfo where
  status : String
  enabled : String
  version : String
  manufacturer : String
  is_tpm20 : Bool
  raw : TpmRaw
deriving DecidableEq, Repr

/-- The fields `get_tpm_info` reads from the JSON payload of
`Get-Tpm | ConvertTo-Json`; each is absent (`j.get` default) or present. -/
structure TpmJson where
  TpmPresent : Option Bool
  TpmEnabled : Option Bool
  TpmReady : Option Bool
  SpecVersion : Option String
  ManufacturerVersionFull20 : Option String
  ManufacturerIdTxt : Option String
deriving DecidableEq, Repr

/-- Python `s.strip("\x00")`: remove NUL characters from both ends. -/
def stripNulls (s : String) : String :=
  let l := s.toList.dropWhile (fun c => c == '\x00')
  String.mk ((l.reverse.dropWhile (fun c => c == '\x00')).reverse)

/-- The sentinel record `get_tpm_info` returns whenever the query fails,
produces no output, or its output cannot be parsed. -/
def tpm_sentinel (out : String) : TpmInfo :=
  { status := "Desconhecido", enabled := "Desconhecido", version := "Desconhecido",
    manufacturer := "Desconhecido", is_tpm20 := false, raw := .text out }

/-- The record `get_tpm_info` builds from a successfully parsed JSON
payload `j` with raw stdout `out`. -/
def get_tpm_info_parsed (j : TpmJson) (out : String) : TpmInfo :=
  let tpm_present := j.TpmPresent.getD false
  let tpm_enabled := j.TpmEnabled.getD false
  let tpm_ready := j.TpmReady.getD false
  let spec_ver := stripNulls (j.SpecVersion.getD "")
  let manuf_ver := stripNulls (j.ManufacturerVersionFull20.getD "")
  let manuf := stripNulls (j.ManufacturerIdTxt.getD "")
  let is_tpm20 := (manuf_ver != "") || pyIn "Full20" out || pyIn "2.0" spec_ver
  { status := if tpm_present then "Presente" else "Ausente"
    enabled := if tpm_enabled || tpm_ready then "Ativado" else "Desativado"
    version := if manuf_ver != "" then manuf_ver
               else if spec_ver != "" then spec_ver else "Desconhecido"
    manufacturer := if manuf != "" then manuf else "Desconhecido"
    is_tpm20 := is_tpm20
    raw := .json j.TpmPresent j.TpmEnabled j.TpmReady j.SpecVersion
            j.ManufacturerVersionFull20 j.ManufacturerIdTxt }

/-- The command line `get_tpm_info` runs. -/
def tpmCmd : String := "powershell -Command \"Get-Tpm | ConvertTo-Json -Depth 4\""

/-- `get_tpm_info` after the `safe_run` call: on success with non-empty
output, parse it (falling back to the sentinel if `json.loads` fails);
otherwise return the sentinel. -/
def get_tpm_info_of (res : Bool × String) (parse : String → Option TpmJson) : TpmInfo :=
  if res.1 && res.2 != "" then
    match parse res.2 with
    | some j => get_tpm_info_parsed j res.2
    | none => tpm_sentinel res.2
  else tpm_sentinel res.2

/-- `get_tpm_info`: probes via `safe_run` with the 8 second timeout. -/
def get_tpm_info (runner : String → ℕ → SubprocOutcome)
    (parse : String → Option TpmJson) : TpmInfo :=
  get_tpm_info_of (safe_run runner tpmCmd 8) parse

/-- The command line `get_secure_boot_status` runs. -/
def secureBootCmd : String := "powershell -Command \"Confirm-SecureBootUEFI\""

/-- Python `str.title()` restricted to a single word, the only shape it is
applied to here (`"true"`/`"false"` variants). -/
def pyTitleWord (s : String) : String :=
  match s.toList with
  | [] => ""
  | c :: cs => String.mk (c.toUpper :: cs.map Char.toLower)

/-- `get_secure_boot_status` after the `safe_run` call. -/
def get_secure_boot_status_of (res : Bool × String) : String :=
  if res.1 && (pyLower res.2 == "true" || pyLower res.2 == "false") then
    pyTitleWord res.2
  else "Indisponível"

/-- `get_secure_boot_status`: probes via `safe_run` with the 8 second
timeout. -/
def get_secure_boot_status (runner : String → ℕ → SubprocOutcome) : String :=
  get_secure_boot_status_of (safe_run runner secureBootCmd 8)

/-- Outcome of the `psutil.disk_usage("C:\\")` call. -/
inductive DiskProbe where
  | ok (total free : ℚ)
  | failed
deriving DecidableEq, Repr

/-- `get_disk_info`: gigabyte sizes on success, sentinel strings if the
usage query raised. -/
def get_disk_info : DiskProbe → PyVal × PyVal
  | .ok t fr => (.num (bytes_to_gb t), .num (bytes_to_gb fr))
  | .failed => (.str "Desconhecido", .str "Desconhecido")

/-- `get_ram_gb`: `bytes_to_gb(psutil.virtual_memory().total)`. -/
def get_ram_gb (totalBytes : ℚ) : ℚ := bytes_to_gb totalBytes

/-- The two command lines `get_firmware_type` runs, in order. -/
def firmwareCimCmd : String :=
  "powershell -Command \"(Get-CimInstance -ClassName Win32_ComputerSystem).SystemFirmwareType\""

/-- Second, WMI-based firmware command line. -/
def firmwareWmiCmd : String :=
  "powershell -Command \"(Get-WmiObject -Class Win32_ComputerSystem).SystemFirmwareType\""

/-- One firmware-probe answer test: `out.strip() in ("2", "UEFI", "uefi")`. -/
def fwIsUefiOut (out : String) : Bool :=
  out.trim == "2" || out.trim == "UEFI" || out.trim == "uefi"

/-- One firmware-probe answer test: `out.strip() in ("1", "BIOS", "bios")`. -/
def fwIsBiosOut (out : String) : Bool :=
  out.trim == "1" || out.trim == "BIOS" || out.trim == "bios"

/-- `get_firmware_type` after its two `safe_run` calls, with `efiExists`
standing for `any(os.path.exists(p) for p in efi_paths)`. -/
def get_firmware_type_of (res1 res2 : Bool × String) (efiExists : Bool) : String :=
  if res1.1 && fwIsUefiOut res1.2 then "UEFI"
  else if res1.1 && fwIsBiosOut res1.2 then "Legacy/BIOS"
  else if res2.1 && fwIsUefiOut res2.2 then "UEFI"
  else if res2.1 && fwIsBiosOut res2.2 then "Legacy/BIOS"
  else if efiExists then "UEFI"
  else "Desconhecido"

/-- `get_firmware_type`: both shell probes use the 8 second timeout. -/
def get_firmware_type (runner : String → ℕ → SubprocOutcome) (efiExists : Bool) : String :=
  get_firmware_type_of (safe_run runner firmwareCimCmd 8)
    (safe_run runner firmwareWmiCmd 8) efiExists

/-- The local variables of `build_report` after all probes have run: one
record per probed fact, in the shapes the probes can actually produce. -/
structure SystemFacts where
  host : String
  user : String
  os_info : String
  arch : String
  manu : String
  model : String
  cpu_name : String
  cpu_cores : Option ℤ
  ram_gb : Option ℚ
  disk_total : PyVal
  disk_free : PyVal
  gpu : String
  tpm : TpmInfo
  secure_boot : String
  firmware : String
deriving DecidableEq, Repr

/-- Positional constructor for `SystemFacts`, in source probe order. -/
def mkFacts (host user os_info arch manu model cpu_name : String)
    (cpu_cores : Option ℤ) (ram_gb : Option ℚ) (disk_total disk_free : PyVal)
    (gpu : String) (tpm : TpmInfo) (secure_boot firmware : String) : SystemFacts :=
  { host := host, user := user, os_info := os_info, arch := arch, manu := manu,
    model := model, cpu_name := cpu_name, cpu_cores := cpu_cores, ram_gb := ram_gb,
    disk_total := disk_total, disk_free := disk_free, gpu := gpu, tpm := tpm,
    secure_boot := secure_boot, firmware := firmware }

/-- The `"RAM"` entry of the `checks` dict: `ram_gb >= 4`. -/
def ramCheck (ram_gb : Option ℚ) : Except PyErr Bool := pyGeQ ram_gb 4

/-- The `"CPU"` entry: `cpu_cores >= 2`. -/
def cpuCheck (cpu_cores : Option ℤ) : Except PyErr Bool := pyGeZ cpu_cores 2

/-- The `"Disco"` entry: `isinstance(disk_total, (int, float)) and disk_total >= 64`. -/
def discoCheck : PyVal → Bool
  | .num q => decide (64 ≤ q)
  | .str _ => false

/-- The `"TPM"` entry: `tpm["is_tpm20"] and "Ativado" in tpm["enabled"]`. -/
def tpmCheck (t : TpmInfo) : Bool := t.is_tpm20 && pyIn "Ativado" t.enabled

/-- The `"Firmware"` entry: `"UEFI" in firmware`. -/
def firmwareCheck (firmware : String) : Bool := pyIn "UEFI" firmware

/-- The `"SecureBoot"` entry: `secure_boot.lower() == "true"`. -/
def secureBootCheck (secure_boot : String) : Bool := pyLower secure_boot == "true"

/-- The `"Arquitetura"` entry: `"64" in arch`. -/
def archCheck (arch : String) : Bool := pyIn "64" arch

/-- The `checks` dict of `build_report`, as an insertion-ordered
association list.  Building the dict evaluates the entries in order;
the RAM and CPU comparisons can raise `TypeError` on `None`. -/
def checksOf (f : SystemFacts) : Except PyErr (List (String × Bool)) := do
  let ram ← ramCheck f.ram_gb
  let cpu ← cpuCheck f.cpu_cores
  pure [("RAM", ram), ("CPU", cpu), ("Disco", discoCheck f.disk_total),
        ("TPM", tpmCheck f.tpm), ("Firmware", firmwareCheck f.firmware),
        ("SecureBoot", secureBootCheck f.secure_boot),
        ("Arquitetura", archCheck f.arch)]

/-- `fully_compatible = all(checks.values())`. -/
def fully_compatible (cs : List (String × Bool)) : Bool := cs.all (fun p => p.2)

/-- `faltando = [k for k, ok in checks.items() if not ok]`. -/
def faltando (cs : List (String × Bool)) : List String :=
  (cs.filter (fun p => !p.2)).map (fun p => p.1)

/-- String renderings that the model keeps abstract: how Python prints a
float and how it prints the raw TPM payload.  No claim depends on the
digits these produce. -/
structure RenderFns where
  numStr : ℚ → String
  rawStr : TpmRaw → String

/-- Python `str(x)` for a float-or-`None` variable. -/
def pyStrOptQ (r : RenderFns) : Option ℚ → String
  | none => "None"
  | some q => r.numStr q

/-- Python `str(x)` for an int-or-`None` variable. -/
def pyStrOptZ : Option ℤ → String
  | none => "None"
  | some n => toString n

/-- The `lines` list assembled by `build_report` once the fallible
comparisons (`ram_gb >= 4` twice, `cpu_cores >= 2` twice) have been
evaluated: `cs` is the `checks` dict, `ramOk`/`cpuOk` the re-evaluated
inline comparisons of the RAM and CPU lines.  The disk line is only
emitted when `disk_total` is a number. -/
def report_lines_core (r : RenderFns) (f : SystemFacts) (cs : List (String × Bool))
    (ramOk cpuOk : Bool) (debug : Bool) : List String :=
  let fully := fully_compatible cs
  let l1 : List String :=
    ["Relatório de Compatibilidade com Windows 11 + Simulação Visual\n"]
  let l2 : List String :=
    ["1. Dados de Identificação e Sistema:\n",
     "- Nome da Máquina: " ++ f.host,
     "- Usuário Logado: " ++ f.user,
     "- Sistema Operacional: " ++ f.os_info,
     "- Arquitetura do SO: " ++ f.arch ++ " — " ++ check_requirement (archCheck f.arch),
     "- Fabricante: " ++ f.manu,
     "- Modelo: " ++ f.model ++ "\n"]
  let l3 : List String :=
    ["2. Hardware:\n",
     "- Memória RAM: " ++ pyStrOptQ r f.ram_gb ++ " GB — " ++
       check_requirement ramOk ++ " (≥ 4 GB)",
     "- CPU: " ++ f.cpu_name ++ " (" ++ pyStrOptZ f.cpu_cores ++ " núcleos) — " ++
       check_requirement cpuOk]
  let l4 : List String :=
    match f.disk_total with
    | .num q =>
        ["- Disco C: " ++ r.numStr q ++ " GB — " ++
          check_requirement (decide (64 ≤ q)) ++ " (≥ 64 GB)"]
    | .str _ => []
  let l5 : List String :=
    ["- GPU: " ++ f.gpu ++ " — " ++ check_requirement (f.gpu != "Desconhecido") ++ "\n"]
  let l6 : List String :=
    ["3. Segurança e Firmware:\n",
     "- TPM: " ++ f.tpm.status ++ " / " ++ f.tpm.enabled ++ " — " ++
       check_requirement (pyIn "Ativado" f.tpm.enabled),
     "- Versão TPM: " ++ f.tpm.version ++ " — " ++
       check_requirement f.tpm.is_tpm20 ++ " (Requisito: 2.0)",
     "- Firmware: " ++ f.firmware ++ " — " ++
       check_requirement (firmwareCheck f.firmware) ++ " (Requisito: UEFI)",
     "- Secure Boot: " ++ f.secure_boot ++ " — " ++
       check_requirement (secureBootCheck f.secure_boot) ++ " (Requisito: Ativado)\n"]
  let l7 : List String :=
    ["Resumo Geral:"] ++
    (if fully then
      ["✅ Este computador é TOTALMENTE compatível com o Windows 11."]
     else
      ["⚠️ Este computador NÃO atende a todos os requisitos do Windows 11.",
       "Itens não compatíveis: " ++ String.intercalate ", " (faltando cs)])
  let l8 : List String :=
    if debug then ["\n[DEBUG] TPM RAW:", r.rawStr f.tpm.raw] else []
  l1 ++ l2 ++ l3 ++ l4 ++ l5 ++ l6 ++ l7 ++ l8

/-- The `lines` list of `build_report`: evaluate the `checks` dict, then
the two inline comparisons repeated in the RAM and CPU lines, then
assemble the text lines.  Any `TypeError` raised by the comparisons
propagates. -/
def report_lines (r : RenderFns) (f : SystemFacts) (debug : Bool) :
    Except PyErr (List String) := do
  let cs ← checksOf f
  let ramOk ← ramCheck f.ram_gb
  let cpuOk ← cpuCheck f.cpu_cores
  pure (report_lines_core r f cs ramOk cpuOk debug)

/-- `build_report` result: the joined report text and the hostname. -/
def build_report (r : RenderFns) (f : SystemFacts) (debug : Bool) :
    Except PyErr (String × String) := do
  let ls ← report_lines r f debug
  pure (String.intercalate "\n" ls, f.host)

/-- `os.path.join` for the shapes used here (a base directory joined with
a relative file name), with the Windows separator. -/
def os_path_join (base name : String) : String :=
  if base == "" then name
  else if base.endsWith "\\" || base.endsWith "/" || base.endsWith ":" then base ++ name
  else base ++ "\\" ++ name

/-- `ntpath.isabs` on the path shapes relevant here: a leading separator,
or a drive letter followed by a separator. -/
def ntIsAbsL (l : List Char) : Bool :=
  (l[0]? == some '\\') || (l[0]? == some '/') ||
  ((l[1]? == some ':') && ((l[2]? == some '\\') || (l[2]? == some '/')))

/-- Absolute-path test on strings. -/
def ntIsAbs (s : String) : Bool := ntIsAbsL s.toList

/-- `write_output_file(content, hostname)` over an explicit filesystem
state (paths to byte contents): picks the base directory (executable
directory when frozen, else the working directory), joins the file name
`<hostname>.txt`, stores the UTF-8 encoding of the content there
(replacing whatever was at that path), and returns the updated state
with the path written. -/
def write_output_file (fs : String → Option (List UInt8)) (frozen : Bool)
    (exeDir cwd : String) (content hostname : String) :
    (String → Option (List UInt8)) × String :=
  let base_dir := if frozen then exeDir else cwd
  let out_path := os_path_join base_dir (hostname ++ ".txt")
  (fun p => if p = out_path then some content.toUTF8.toList else fs p, out_path)

/-- Whether an `Except` computation succeeded. -/
def exOk {α : Type} : Except PyErr α → Bool
  | .ok _ => true
  | .error _ => false

/-- The value of a successful `Except` computation, with a default. -/
def exGet {α : Type} (d : α) : Except PyErr α → α
  | .ok a => a
  | .error _ => d

/-- Bool test that a report line starts with the disk-line marker. -/
def startsDisk (l : String) : Bool := chPre "- Disco".toList l.toList

@[simp] theorem exGet_ok {α : Type} (d a : α) : exGet d (Except.ok a) = a := rfl

@[simp] theorem exOk_ok {α : Type} (a : α) : exOk (Except.ok a) = true := rfl

theorem startsDisk_iff (l : String) :
    startsDisk l = true ↔ "- Disco".toList <+: l.toList := by
  simp [startsDisk, chPre_iff]

/-- Extending a string on the right cannot create the disk-line marker at
the front when the original is at least as long as the marker and lacks
it. -/
theorem startsDisk_append (a b : String) (hlen : 7 ≤ a.length)
    (ha : startsDisk a = false) : startsDisk (a ++ b) = false := by
  unfold startsDisk at ha ⊢
  have htl : (a ++ b).toList = a.toList ++ b.toList := String.data_append a b
  rw [htl, chPre_append_of_le _ _ _
    (show ("- Disco".toList).length ≤ a.toList.length from hlen)]
  exact ha

theorem ntIsAbsL_append (l xs : List Char) (h : ntIsAbsL l = true) :
    ntIsAbsL (l ++ xs) = true := by
  unfold ntIsAbsL at h ⊢
  simp only [Bool.or_eq_true, Bool.and_eq_true, beq_iff_eq] at h ⊢
  have hget : ∀ (i : ℕ) (c : Char), l[i]? = some c → (l ++ xs)[i]? = some c := by
    intro i c hc
    obtain ⟨hi, he⟩ := List.getElem?_eq_some.mp hc
    rw [List.getElem?_append, if_pos hi]
    exact hc
  rcases h with (h0 | h0) | ⟨h1, h2 | h2⟩
  · exact Or.inl (Or.inl (hget 0 _ h0))
  · exact Or.inl (Or.inr (hget 0 _ h0))
  · exact Or.inr ⟨hget 1 _ h1, Or.inl (hget 2 _ h2)⟩
  · exact Or.inr ⟨hget 1 _ h1, Or.inr (hget 2 _ h2)⟩

/-- Joining a relative name onto an absolute base keeps the path
absolute. -/
theorem ntIsAbs_join (base name : String) (h : ntIsAbs base = true) :
    ntIsAbs (os_path_join base name) = true := by
  unfold os_path_join
  by_cases hb : base == ""
  · rw [if_pos hb]
    rw [show base = "" from by simpa using hb] at h
    simp [ntIsAbs, ntIsAbsL, String.toList] at h
  · rw [if_neg hb]
    unfold ntIsAbs at h ⊢
    by_cases hsep : base.endsWith "\\" || base.endsWith "/" || base.endsWith ":"
    · rw [if_pos hsep]
      rw [show (base ++ name).toList = base.toList ++ name.toList from
        String.data_append base name]
      exact ntIsAbsL_append _ _ h
    · rw [if_neg hsep]
      rw [String.append_assoc base "\\" name]
      rw [show (base ++ ("\\" ++ name)).toList = base.toList ++ ("\\" ++ name).toList from
        String.data_append base ("\\" ++ name)]
      exact ntIsAbsL_append _ _ h

/-- A category recorded as failing appears in the `faltando` list. -/
theorem faltando_contains {cs : List (String × Bool)} {n : String}
    (h : (n, false) ∈ cs) : (faltando cs).contains n = true := by
  simp only [faltando, List.contains, List.elem_iff, List.mem_map, List.mem_filter]
  exact ⟨(n, false), ⟨h, rfl⟩, rfl⟩

/-- Claim C1: the claim says evaluation in `build_report` runs to
completion with the affected category false whenever a field is an
unknown sentinel; in fact an unknown (`None`) CPU core count — which
`get_cpu_info` can return, since `psutil.cpu_count(logical=False)` may be
`None` — makes the `checks` dict construction raise `TypeError` at
`cpu_cores >= 2`, and an unknown `ram_gb` likewise raises at
`ram_gb >= 4`.  The code contradicts the claim (and the spec's fail-closed
invariant, which the guarded disk check shows to be the intent). -/
theorem C1_unknown_field_raises :
    checksOf (mkFacts "HOST" "user" "Windows 10 Pro" "64bit" "Dell" "XPS" "Intel i5"
        none (some 8) (.num 256) (.num 100) "GPU" (tpm_sentinel "") "True" "UEFI")
      = Except.error PyErr.typeError ∧
    checksOf (mkFacts "HOST" "user" "Windows 10 Pro" "64bit" "Dell" "XPS" "Intel i5"
        (some 4) none (.num 256) (.num 100) "GPU" (tpm_sentinel "") "True" "UEFI")
      = Except.error PyErr.typeError := ⟨rfl, rfl⟩

/-- Claim C3, counterexample: the claim says `ramBytes = 4 * 1024 ^ 3 - 1`
(one byte below 4 GiB) makes the RAM category fail; in fact
`bytes_to_gb` rounds to two decimal places, `round((4 * 2 ^ 30 - 1) / 2 ^ 30, 2)
= 4.0`, and the RAM category passes. -/
theorem C3_counterexample :
    ramCheck (some (get_ram_gb (4 * 1024 ^ 3 - 1))) = Except.ok true := by
  have h : (4 : ℚ) ≤ get_ram_gb (4 * 1024 ^ 3 - 1) := by
    norm_num [get_ram_gb, bytes_to_gb, round2, pyRound]
  simp [ramCheck, pyGeQ, h]

/-- Claim C3, amended: the RAM threshold is inclusive at 4 binary
gigabytes, but because `bytes_to_gb` rounds to two decimals, one byte
below 4 GiB still passes; the check fails once the rounded gigabyte
value drops below 4.00 — it passes for `ramBytes = 4289598587` and fails
for `ramBytes = 4289598586` (rounded value 3.99). -/
theorem C3_amended_boundary :
    ramCheck (some (get_ram_gb (4 * 1024 ^ 3))) = Except.ok true ∧
    ramCheck (some (get_ram_gb (4 * 1024 ^ 3 - 1))) = Except.ok true ∧
    ramCheck (some (get_ram_gb 4289598587)) = Except.ok true ∧
    ramCheck (some (get_ram_gb 4289598586)) = Except.ok false := by
  have h1 : (4 : ℚ) ≤ get_ram_gb (4 * 1024 ^ 3) := by
    norm_num [get_ram_gb, bytes_to_gb, round2, pyRound]
  have h2 : (4 : ℚ) ≤ get_ram_gb (4 * 1024 ^ 3 - 1) := by
    norm_num [get_ram_gb, bytes_to_gb, round2, pyRound]
  have h3 : (4 : ℚ) ≤ get_ram_gb 4289598587 := by
    norm_num [get_ram_gb, bytes_to_gb, round2, pyRound]
  have h4 : ¬ (4 : ℚ) ≤ get_ram_gb 4289598586 := by
    norm_num [get_ram_gb, bytes_to_gb, round2, pyRound]
  refine ⟨?_, ?_, ?_, ?_⟩ <;> simp [ramCheck, pyGeQ, h1, h2, h3, h4]

theorem pyIn_ativado_pos : pyIn "Ativado" "Ativado" = true := rfl

theorem pyIn_ativado_neg : pyIn "Ativado" "Desativado" = false := rfl

/-- Claim C4: on a parsed TPM payload the TPM category passes iff
`is_tpm20` holds and the reported `TpmEnabled` or `TpmReady` flag was
true (the `enabled` field is the string `"Ativado"` exactly in that
case, and the case-sensitive `"Ativado" in "Desativado"` test is false);
the specific instance version-2 = true, enabled = false, ready = true
passes; and the unparsed sentinel (`enabled = "Desconhecido"`,
`is_tpm20 = false`) fails. -/
theorem C4_tpm_check (j : TpmJson) (out : String) :
    tpmCheck (get_tpm_info_parsed j out)
      = ((get_tpm_info_parsed j out).is_tpm20
          && (j.TpmEnabled.getD false || j.TpmReady.getD false)) ∧
    tpmCheck (get_tpm_info_parsed
      ⟨some true, some false, some true, some "2.0, 0, 1.16", some "403.1.0.0", some "INTC"⟩
      "raw output") = true ∧
    tpmCheck (tpm_sentinel "powershell failed") = false := by
  refine ⟨?_, rfl, rfl⟩
  cases he : j.TpmEnabled.getD false <;> cases hr : j.TpmReady.getD false <;>
    simp [tpmCheck, get_tpm_info_parsed, he, hr, pyIn_ativado_pos, pyIn_ativado_neg]

/-- Claim C5: the Disk category passes iff `disk_total` is a number
whose (gigabyte) value is at least 64; on the `"Desconhecido"` sentinel
it is false, and the whole `checks` evaluation still completes without
error. -/
theorem C5_disk_check (q : ℚ) (s : String) (t fr : ℚ) :
    discoCheck (PyVal.num q) = decide (64 ≤ q) ∧
    discoCheck (PyVal.str s) = false ∧
    discoCheck (get_disk_info (DiskProbe.ok t fr)).1 = decide (64 ≤ bytes_to_gb t) ∧
    discoCheck (get_disk_info DiskProbe.failed).1 = false ∧
    checksOf (mkFacts "HOST" "user" "Windows 10 Pro" "64bit" "Dell" "XPS" "Intel i5"
        (some 4) (some 8) (.str "Desconhecido") (.str "Desconhecido") "GPU"
        (tpm_sentinel "") "True" "UEFI")
      = Except.ok [("RAM", true), ("CPU", true), ("Disco", false), ("TPM", false),
                   ("Firmware", true), ("SecureBoot", true), ("Arquitetura", true)] :=
  ⟨rfl, rfl, rfl, rfl, rfl⟩

/-- Claim C6: the SecureBoot category passes iff the state string
lowercases to `"true"`; `"True"`, `"TRUE"`, `"true"` pass while
`"Unavailable"` and the sentinel `"Indisponível"` fail. -/
theorem C6_secure_boot :
    (∀ s : String, secureBootCheck s = true ↔ pyLower s = "true") ∧
    secureBootCheck "True" = true ∧
    secureBootCheck "TRUE" = true ∧
    secureBootCheck "true" = true ∧
    secureBootCheck "Unavailable" = false ∧
    secureBootCheck "Indisponível" = false := by
  refine ⟨fun s => ?_, rfl, rfl, rfl, rfl, rfl⟩
  simp [secureBootCheck]

/-- Claim C7: the Architecture category passes iff the label contains
the substring `"64"`; `"64-bit"` passes, `"32-bit"` and the empty string
fail. -/
theorem C7_architecture :
    (∀ s : String, archCheck s = true ↔ "64".toList <:+: s.toList) ∧
    archCheck "64-bit" = true ∧
    archCheck "32-bit" = false ∧
    archCheck "" = false := by
  refine ⟨fun s => ?_, rfl, rfl, rfl⟩
  simp [archCheck, pyIn_iff]

/-- Claim C8: every shelling probe calls `safe_run` at the fixed 8 second
timeout; `safe_run` maps a timeout, an exception, or a non-zero exit to
`(False, message)` instead of raising; and on a failed `safe_run` the
probes return their sentinels (`get_tpm_info` the unknown TPM record,
`get_secure_boot_status` the string `"Indisponível"`, `get_firmware_type`
the string `"Desconhecido"` when the EFI directories are absent too). -/
theorem C8_probe_failure_sentinels (m : String) (rc : ℤ) (out err o1 o2 : String)
    (efi : Bool) (runner : String → ℕ → SubprocOutcome)
    (parse : String → Option TpmJson) :
    safe_run_outcome (SubprocOutcome.timedOut m) = (false, m) ∧
    safe_run_outcome (SubprocOutcome.raised m) = (false, m) ∧
    (safe_run_outcome (SubprocOutcome.completed rc out err)).1 = (rc == 0) ∧
    get_tpm_info runner parse = get_tpm_info_of (safe_run runner tpmCmd 8) parse ∧
    get_secure_boot_status runner
      = get_secure_boot_status_of (safe_run runner secureBootCmd 8) ∧
    get_firmware_type runner efi
      = get_firmware_type_of (safe_run runner firmwareCimCmd 8)
          (safe_run runner firmwareWmiCmd 8) efi ∧
    get_tpm_info_of (false, o1) parse = tpm_sentinel o1 ∧
    get_secure_boot_status_of (false, o1) = "Indisponível" ∧
    get_firmware_type_of (false, o1) (false, o2) false = "Desconhecido" := by
  refine ⟨rfl, rfl, ?_, rfl, rfl, rfl, rfl, rfl, rfl⟩
  cases h : rc == 0 <;> simp [safe_run_outcome, h]

/-- Claim C9: `write_output_file` writes exactly the UTF-8 bytes of the
content at the path `<base>\<hostname>.txt`, where the base directory is
the executable's directory when frozen and the working directory
otherwise; every other path of the filesystem is untouched; the path
written is returned; and it is absolute whenever the base directory is. -/
theorem C9_write_output (fs : String → Option (List UInt8)) (content hostname : String)
    (frozen : Bool) (exeDir cwd : String) (p : String) :
    (write_output_file fs frozen exeDir cwd content hostname).2
      = os_path_join (if frozen then exeDir else cwd) (hostname ++ ".txt") ∧
    (write_output_file fs frozen exeDir cwd content hostname).1
        ((write_output_file fs frozen exeDir cwd content hostname).2)
      = some content.toUTF8.toList ∧
    (write_output_file fs frozen exeDir cwd content hostname).1 p
      = (if p = (write_output_file fs frozen exeDir cwd content hostname).2
         then some content.toUTF8.toList else fs p) ∧
    (ntIsAbs (if frozen then exeDir else cwd) = true
      → ntIsAbs (write_output_file fs frozen exeDir cwd content hostname).2 = true) := by
  refine ⟨rfl, ?_, rfl, ?_⟩
  · simp [write_output_file]
  · intro h
    exact ntIsAbs_join _ _ h

/-- Witness for C9 at a concrete frozen = false run from `C:\work`. -/
theorem C9_witness :
    ntIsAbs (write_output_file (fun _ => none) false "D:\\app" "C:\\work"
      "conteudo" "HOST").2 = true :=
  (C9_write_output (fun _ => none) "conteudo" "HOST" false "D:\\app" "C:\\work"
    "other").2.2.2 (by rfl)

/-- `all(checks.values())` over the seven-entry dict is the conjunction
of the seven booleans. -/
theorem seven_all (b1 b2 b3 b4 b5 b6 b7 : Bool) :
    fully_compatible [("RAM", b1), ("CPU", b2), ("Disco", b3), ("TPM", b4),
        ("Firmware", b5), ("SecureBoot", b6), ("Arquitetura", b7)]
      = (b1 && b2 && b3 && b4 && b5 && b6 && b7) := by
  cases b1 <;> cases b2 <;> cases b3 <;> cases b4 <;> cases b5 <;> cases b6 <;>
    cases b7 <;> rfl

/-- The failing-categories comprehension keeps exactly the false entries,
in dict insertion order. -/
theorem seven_faltando (b1 b2 b3 b4 b5 b6 b7 : Bool) :
    faltando [("RAM", b1), ("CPU", b2), ("Disco", b3), ("TPM", b4),
        ("Firmware", b5), ("SecureBoot", b6), ("Arquitetura", b7)]
      = ((if b1 then [] else ["RAM"]) ++ (if b2 then [] else ["CPU"]) ++
         (if b3 then [] else ["Disco"]) ++ (if b4 then [] else ["TPM"]) ++
         (if b5 then [] else ["Firmware"]) ++ (if b6 then [] else ["SecureBoot"]) ++
         (if b7 then [] else ["Arquitetura"])) := by
  cases b1 <;> cases b2 <;> cases b3 <;> cases b4 <;> cases b5 <;> cases b6 <;>
    cases b7 <;> rfl

/-- Claim C2: whenever the `checks` dict construction completes (RAM and
CPU values present), it holds the seven category booleans in the fixed
order RAM, CPU, Disco, TPM, Firmware, SecureBoot, Arquitetura;
`fully_compatible` is their conjunction; and `faltando` lists exactly the
false categories in that order. -/
theorem C2_verdict_and_failing (host user osi arch manu mo cpun gpu sb fw : String)
    (r : ℚ) (c : ℤ) (dt dfr : PyVal) (t : TpmInfo) :
    checksOf (mkFacts host user osi arch manu mo cpun (some c) (some r) dt dfr gpu t sb fw)
      = Except.ok [("RAM", decide (4 ≤ r)), ("CPU", decide (2 ≤ c)),
          ("Disco", discoCheck dt), ("TPM", tpmCheck t), ("Firmware", firmwareCheck fw),
          ("SecureBoot", secureBootCheck sb), ("Arquitetura", archCheck arch)] ∧
    fully_compatible [("RAM", decide (4 ≤ r)), ("CPU", decide (2 ≤ c)),
        ("Disco", discoCheck dt), ("TPM", tpmCheck t), ("Firmware", firmwareCheck fw),
        ("SecureBoot", secureBootCheck sb), ("Arquitetura", archCheck arch)]
      = (decide (4 ≤ r) && decide (2 ≤ c) && discoCheck dt && tpmCheck t &&
         firmwareCheck fw && secureBootCheck sb && archCheck arch) ∧
    faltando [("RAM", decide (4 ≤ r)), ("CPU", decide (2 ≤ c)),
        ("Disco", discoCheck dt), ("TPM", tpmCheck t), ("Firmware", firmwareCheck fw),
        ("SecureBoot", secureBootCheck sb), ("Arquitetura", archCheck arch)]
      = ((if decide (4 ≤ r) then [] else ["RAM"]) ++
         (if decide (2 ≤ c) then [] else ["CPU"]) ++
         (if discoCheck dt then [] else ["Disco"]) ++
         (if tpmCheck t then [] else ["TPM"]) ++
         (if firmwareCheck fw then [] else ["Firmware"]) ++
         (if secureBootCheck sb then [] else ["SecureBoot"]) ++
         (if archCheck arch then [] else ["Arquitetura"])) :=
  ⟨rfl, seven_all _ _ _ _ _ _ _, seven_faltando _ _ _ _ _ _ _⟩

/-- Claim C10: with the disk sentinel (and RAM and CPU values present so
the evaluation completes), the report is produced, none of its lines is
a disk line, `"Disco"` is in the failing-categories list, and the
summary line listing the failing categories is one of the report's
lines. -/
theorem C10_disk_sentinel_report (r : RenderFns)
    (host user osi arch manu mo cpun gpu sb fw s : String) (c : ℤ) (q : ℚ)
    (dfr : PyVal) (t : TpmInfo) :
    exOk (report_lines r (mkFacts host user osi arch manu mo cpun (some c) (some q)
        (.str s) dfr gpu t sb fw) false) = true ∧
    (exGet [] (report_lines r (mkFacts host user osi arch manu mo cpun (some c) (some q)
        (.str s) dfr gpu t sb fw) false)).all (fun l => !(startsDisk l)) = true ∧
    (faltando (exGet [] (checksOf (mkFacts host user osi arch manu mo cpun (some c)
        (some q) (.str s) dfr gpu t sb fw)))).contains "Disco" = true ∧
    (exGet [] (report_lines r (mkFacts host user osi arch manu mo cpun (some c) (some q)
        (.str s) dfr gpu t sb fw) false)).any
      (fun l => l == "Itens não compatíveis: " ++ String.intercalate ", "
        (faltando (exGet [] (checksOf (mkFacts host user osi arch manu mo cpun (some c)
          (some q) (.str s) dfr gpu t sb fw))))) = true := by
  have hcs : checksOf (mkFacts host user osi arch manu mo cpun (some c) (some q)
      (.str s) dfr gpu t sb fw)
      = Except.ok [("RAM", decide (4 ≤ q)), ("CPU", decide (2 ≤ c)), ("Disco", false),
          ("TPM", tpmCheck t), ("Firmware", firmwareCheck fw),
          ("SecureBoot", secureBootCheck sb), ("Arquitetura", archCheck arch)] := rfl
  have hrep : report_lines r (mkFacts host user osi arch manu mo cpun (some c) (some q)
      (.str s) dfr gpu t sb fw) false
      = Except.ok (report_lines_core r (mkFacts host user osi arch manu mo cpun (some c)
          (some q) (.str s) dfr gpu t sb fw)
          [("RAM", decide (4 ≤ q)), ("CPU", decide (2 ≤ c)), ("Disco", false),
           ("TPM", tpmCheck t), ("Firmware", firmwareCheck fw),
           ("SecureBoot", secureBootCheck sb), ("Arquitetura", archCheck arch)]
          (decide (4 ≤ q)) (decide (2 ≤ c)) false) := rfl
  have hfully : fully_compatible [("RAM", decide (4 ≤ q)), ("CPU", decide (2 ≤ c)),
      ("Disco", false), ("TPM", tpmCheck t), ("Firmware", firmwareCheck fw),
      ("SecureBoot", secureBootCheck sb), ("Arquitetura", archCheck arch)] = false := by
    simp [fully_compatible]
  refine ⟨?_, ?_, ?_, ?_⟩
  · rw [hrep]; rfl
  · rw [hrep, exGet_ok]
    simp +decide [report_lines_core, mkFacts, hfully, List.all_append, List.all_cons,
      List.all_nil, String.append_assoc, startsDisk_append]
  · rw [hcs, exGet_ok]
    exact faltando_contains (by simp)
  · rw [hrep, hcs, exGet_ok, exGet_ok]
    simp [report_lines_core, mkFacts, hfully, List.any_append, List.any_cons,
      List.any_nil]

end Win11Check
